import Mathlib

/-!
Shallow embedding of `src/transcriber.py` (offline-transcriber), the sequential
transcription-and-enrichment pipeline: localized text tables, the format
converter, the transcription and enrichment invokers, the batch orchestrator
`transcribe_many`, the result renderer `_render_results`, and the recording
queue helper `add_recording_to_queue`.

External effects are modelled explicitly:
  - the filesystem is split into the submitted input paths that exist
    (`St.fs`, read by the orchestrator's existence check on submitted paths)
    and the temporary WAV files currently on disk (`St.temps`, read by the
    converter's and the finally clause's existence checks on the drawn
    temporary name); keeping the two apart encodes `NamedTemporaryFile`'s
    freshness guarantee that a drawn temporary name (O_EXCL-created in the
    temporary directory) never coincides with a submitted input path;
  - `os.remove` may fail (oracle `Env.removeOk`): a failing removal leaves
    the file on disk and raises `OSError`, which the finally clause swallows
    and the converter's failure handlers do not;
  - wall-clock time (`time.perf_counter`) is an integer tick counter
    (`St.clock`) advanced by an oracle-given duration at each external call;
  - `tempfile.NamedTemporaryFile` draws names from an oracle stream indexed by
    a counter (`St.tempCtr`);
  - each external-capability call (ffmpeg subprocess, the speech-recognition
    pipeline, the Ollama HTTP endpoint) appends an `Event` to a trace
    (`St.trace`), so "capability X was never invoked" is a statement about the
    trace;
  - Python exceptions are `Except String` values carrying `str(exc)`.

Python dict result records (which may lack the `summary`/`bullets` keys on
some branches) are modelled by `PyResult`, where an `Option` field with value
`none` means the key is absent from the dict.
-/

namespace Transcriber

/-- Fuel-indexed scanner for `pyReplace`; every step consumes at least one
character, so fuel equal to the input length always suffices. Structural
recursion on the fuel keeps the function kernel-reducible. -/
def pyReplaceAux (pat rep : List Char) : Nat → List Char → List Char
  | 0, cs => cs
  | _ + 1, [] => []
  | fuel + 1, c :: rest =>
    if pat.isPrefixOf (c :: rest) then
      rep ++ pyReplaceAux pat rep fuel (rest.drop (pat.length - 1))
    else
      c :: pyReplaceAux pat rep fuel rest

/-- Replacement of every (non-overlapping, leftmost-first) occurrence of
`pat` by `rep`, over character lists; models Python `str.replace` and the
single-placeholder uses of `str.format` in the source. -/
def pyReplace (pat rep cs : List Char) : List Char :=
  pyReplaceAux pat rep cs.length cs

/-- String-level wrapper for `pyReplace`: `template.format(key=value)` where
`key` is the literal placeholder text (braces included). -/
def pyFormat (template key value : String) : String :=
  String.mk (pyReplace key.toList value.toList template.toList)

/-- Whitespace characters stripped by Python `str.strip()`. -/
def pyIsSpace (c : Char) : Bool :=
  c = ' ' || c = '\t' || c = '\n' || c = '\r' || c = '\x0b' || c = '\x0c'

/-- Python `str.strip()`. -/
def pyStrip (s : String) : String :=
  String.mk (((s.toList.dropWhile pyIsSpace).reverse.dropWhile pyIsSpace).reverse)

/-- Python `os.path.basename` on POSIX: the part after the last `/`. -/
def pyBasename (p : String) : String :=
  String.mk ((p.toList.reverse.takeWhile (fun c => c ≠ '/')).reverse)

/-- Suffix of `cs` starting at its last dot, if any. -/
def suffixFromLastDot : List Char → Option (List Char)
  | [] => none
  | c :: rest =>
    match suffixFromLastDot rest with
    | some e => some e
    | none => if c = '.' then some (c :: rest) else none

/-- Extension component of Python `os.path.splitext`: the suffix from the last
dot of the final path component, unless every character before that dot (in
the final component) is itself a dot. -/
def splitextExt (p : String) : String :=
  let base := (pyBasename p).toList
  match suffixFromLastDot base with
  | some e =>
    if (base.take (base.length - e.length)).any (fun c => c ≠ '.') then
      String.mk e
    else
      ""
  | none => ""

/-- ASCII lowercasing, as applied by `.lower()` to file extensions. -/
def pyLower (s : String) : String :=
  String.mk (s.toList.map Char.toLower)

/-- Python `html.escape` with its default `quote=True` (the source calls it
both with and without an explicit `quote=True`; the default is `True`, so all
its escapes here are identical): replaces, in order, `&` `<` `>` `"` `'`. -/
def html_escape (s : String) : String :=
  let r := fun (pat rep x : String) => String.mk (pyReplace pat.toList rep.toList x.toList)
  r "\x27" "&#x27;" (r "\"" "&quot;" (r ">" "&gt;" (r "<" "&lt;" (r "&" "&amp;" s))))

/-- Python `a or b` for strings: `a` if non-empty, else `b`. -/
def pyOrStr (a b : String) : String :=
  if a.isEmpty then b else a

/-- Python `a or b` for optional strings (`None` and `""` are falsy). -/
def pyOrOpt (a b : Option String) : Option String :=
  if (a.getD "").isEmpty then b else a

/-- Prompt templates of one language entry of `TEXTS`. -/
structure Prompts where
  summary : String
  bullets : String
deriving Repr, DecidableEq

/-- Error-message table of one language entry of `TEXTS`. -/
structure ErrorTexts where
  ffmpeg_not_found : String
  wav_conversion_failed : String
  file_not_found : String
  transcription_error : String
deriving Repr, DecidableEq

/-- UI-string table of one language entry of `TEXTS`. -/
structure UiTexts where
  markdown_header : String
  alert_ffmpeg_missing : String
  label_files : String
  label_summary : String
  label_bullets : String
  button_transcribe : String
  output_label : String
  empty_results : String
  result_time : String
  pane_transcription_title : String
  pane_summary_title : String
  pane_bullets_title : String
  copy_label : String
  copy_done : String
  copy_transcription_aria : String
  copy_summary_aria : String
  copy_bullets_aria : String
  transcription_empty : String
  summary_placeholder : String
  bullets_placeholder : String
  default_audio_name : String
  language_label : String
  label_record : String
  button_add_recording : String
  record_added : String
  record_missing : String
deriving Repr, DecidableEq

/-- One language entry of the `TEXTS` dictionary. -/
structure Texts where
  prompts : Prompts
  errors : ErrorTexts
  ui : UiTexts
deriving Repr, DecidableEq

/-- The `"it"` entry of `TEXTS` (source lines 31-85); `\x7b`/`\x7d` denote the
literal braces of the Python format placeholders. -/
def TEXTS_it : Texts := {
  prompts := {
    summary := "Fai un riassunto schematico del testo seguente. Includi solo gli elementi chiave in un testo sintetico. Non usare elenchi puntati e non aggiungere testo extra.\n\nTesto da riassumere:\n\x7bcontent\x7d",
    bullets := "Crea una lista puntata con gli elementi essenziali del testo seguente. Frasi brevi, senza testo extra.\n\nTesto:\n\x7bcontent\x7d" },
  errors := {
    ffmpeg_not_found := "ffmpeg non trovato per la conversione in WAV.",
    wav_conversion_failed := "Conversione in WAV non riuscita.",
    file_not_found := "File non trovato.",
    transcription_error := "Errore durante conversione/trascrizione: \x7berror\x7d" },
  ui := {
    markdown_header := "# Trascrivi audio!\nCarica uno o pi√π file audio. I file vengono trascritti in sequenza!",
    alert_ffmpeg_missing := "<div class=\x27alert\x27>ATTENZIONE: utility ffmpeg non trovata. I file diversi da WAV non verranno convertiti!</div>",
    label_files := "Registrazioni da trascrivere:",
    label_summary := "Crea riassunto schematico dal testo trascritto",
    label_bullets := "Crea lista puntata dal testo trascritto",
    button_transcribe := "Trascrivi",
    output_label := "Risultati",
    empty_results := "Nessun risultato da mostrare.",
    result_time := "Tempo: \x7bseconds:.2f\x7ds",
    pane_transcription_title := "Trascrizione",
    pane_summary_title := "Riassunto",
    pane_bullets_title := "Lista puntata",
    copy_label := "Copia",
    copy_done := "Copiato",
    copy_transcription_aria := "Copia trascrizione",
    copy_summary_aria := "Copia riassunto",
    copy_bullets_aria := "Copia lista puntata",
    transcription_empty := "Trascrizione vuota.",
    summary_placeholder := "Riassunto non disponibile.",
    bullets_placeholder := "Lista puntata non disponibile.",
    default_audio_name := "audio",
    language_label := "Lingua interfaccia",
    label_record := "Registra audio (microfono):",
    button_add_recording := "Aggiungi registrazione alla coda",
    record_added := "Registrazione aggiunta alla coda: \x7bname\x7d",
    record_missing := "Nessuna registrazione da aggiungere." } }

/-- The `"en"` entry of `TEXTS` (source lines 86-140). -/
def TEXTS_en : Texts := {
  prompts := {
    summary := "Provide a structured summary of the following text. Include only the key elements in a concise text. Do not use bullet points and do not add extra text.\n\nText to summarize:\n\x7bcontent\x7d",
    bullets := "Create a bullet list with the essential elements of the following text. Short sentences, without extra text.\n\nText:\n\x7bcontent\x7d" },
  errors := {
    ffmpeg_not_found := "ffmpeg not found for WAV conversion.",
    wav_conversion_failed := "WAV conversion failed.",
    file_not_found := "File not found.",
    transcription_error := "Error during conversion/transcription: \x7berror\x7d" },
  ui := {
    markdown_header := "# Transcribe audio!\nUpload one or more audio files. Files are transcribed sequentially!",
    alert_ffmpeg_missing := "<div class=\x27alert\x27>WARNING: ffmpeg utility not found. Non-WAV files will not be converted!</div>",
    label_files := "Recordings to transcribe:",
    label_summary := "Create a structured summary from the transcribed text",
    label_bullets := "Create a bullet list from the transcribed text",
    button_transcribe := "Transcribe",
    output_label := "Results",
    empty_results := "No results to display.",
    result_time := "Time: \x7bseconds:.2f\x7ds",
    pane_transcription_title := "Transcription",
    pane_summary_title := "Summary",
    pane_bullets_title := "Bullet list",
    copy_label := "Copy",
    copy_done := "Copied",
    copy_transcription_aria := "Copy transcription",
    copy_summary_aria := "Copy summary",
    copy_bullets_aria := "Copy bullet list",
    transcription_empty := "Empty transcription.",
    summary_placeholder := "Summary not available.",
    bullets_placeholder := "Bullet list not available.",
    default_audio_name := "audio",
    language_label := "Interface language",
    label_record := "Record audio (microphone):",
    button_add_recording := "Add recording to queue",
    record_added := "Recording added to the queue: \x7bname\x7d",
    record_missing := "No recording to add." } }

/-- Default language for labels, prompts, and transcription (source line 21). -/
def LANG_DEFAULT : String := "it"

/-- The `TEXTS` dictionary as a partial map from language code to entry. -/
def TEXTS (lang : String) : Option Texts :=
  if lang = "it" then some TEXTS_it
  else if lang = "en" then some TEXTS_en
  else none

/-- Source `_get_text`: `TEXTS.get(lang, TEXTS[LANG_DEFAULT])`, where
`TEXTS[LANG_DEFAULT] = TEXTS_it`. -/
def _get_text (lang : String) : Texts :=
  (TEXTS lang).getD TEXTS_it

/-- Source `_asr_language`: `"italian" if lang == "it" else "english"`. -/
def _asr_language (lang : String) : String :=
  if lang = "it" then "italian" else "english"

/-- Source `_needs_wav_conversion`: the lowercased `splitext` extension
differs from `".wav"`. -/
def _needs_wav_conversion (filepath : String) : Bool :=
  pyLower (splitextExt filepath) ≠ ".wav"

/-- One external-capability invocation, recorded in the trace. -/
inductive Event where
  /-- A `subprocess.run(["ffmpeg", ...])` attempt on the given source path. -/
  | convert (src : String)
  /-- A `_ASR(path, ...)` speech-recognition call. -/
  | asr (path : String)
  /-- A `urllib.request.urlopen` POST of the given prompt to the Ollama
  endpoint. -/
  | ollama (prompt : String)
deriving Repr, DecidableEq

/-- Outcome of one POST to the Ollama `/api/generate` endpoint, as seen by
`_ollama_summary` / `_ollama_bullets`. -/
inductive OllamaOutcome where
  /-- `urllib.error.URLError` (connection failure or exceeded timeout). -/
  | connError
  /-- `urllib.error.HTTPError` (non-2xx status). -/
  | httpError
  /-- `json.JSONDecodeError`: the body is not parseable JSON. -/
  | badJson
  /-- The body parsed to a JSON object; `response` is its optional
  `"response"` field. -/
  | okObj (response : Option String)
  /-- The body parsed to a JSON value that is not an object, so
  `parsed.get(...)` raises `AttributeError` (not caught by the handler). -/
  | okNonObj
deriving Repr, DecidableEq

/-- Mutable world state threaded through the pipeline. -/
structure St where
  /-- Submitted input paths that currently exist on the filesystem (set
  semantics). -/
  fs : List String
  /-- Temporary WAV files currently existing on disk (set semantics). -/
  temps : List String
  /-- Integer `time.perf_counter` tick count. -/
  clock : Nat
  /-- How many temporary names have been drawn so far. -/
  tempCtr : Nat
  /-- Chronological log of external-capability invocations. -/
  trace : List Event
deriving Repr, DecidableEq

/-- Oracles fixing the behaviour of the external collaborators (black-box
capabilities per the spec): ffmpeg, the speech-recognition pipeline, the
Ollama endpoint, temporary-name generation, and the duration of each call. -/
structure Env where
  /-- Whether the ffmpeg binary is on the PATH (absence raises
  `FileNotFoundError` from `subprocess.run`). -/
  ffmpeg : Bool
  /-- Whether ffmpeg exits with status 0 on the given input path. -/
  convertOk : String → Bool
  /-- Duration of the conversion subprocess. -/
  convDur : String → Nat
  /-- Temporary WAV name produced by `tempfile.NamedTemporaryFile` for the
  n-th draw. -/
  tempName : Nat → String
  /-- Whether `os.remove` succeeds on the given path (when the file exists);
  a failing removal raises `OSError` and leaves the file in place. -/
  removeOk : String → Bool
  /-- Result of `_ASR(path, ...)`: an exception message, or the optional
  `"text"` field of the returned dict. -/
  asr : String → Except String (Option String)
  /-- Duration of the `_ASR` call. -/
  asrDur : String → Nat
  /-- Outcome of POSTing the given prompt to the Ollama endpoint. -/
  ollamaResp : String → OllamaOutcome
  /-- Duration of the POST (connection wait included). -/
  ollamaDur : String → Nat

/-- One per-file result dict of `transcribe_many`. A field of type
`Option String` models a dict key that is present only on some branches:
`none` means the key is absent. -/
structure PyResult where
  file : String
  text : String
  summary : Option String
  bullets : Option String
  seconds : Nat
deriving Repr, DecidableEq

/-- Explicit default used with `List.getD` over result lists. -/
def dummyResult : PyResult :=
  { file := "", text := "", summary := none, bullets := none, seconds := 0 }

/-- Source `_ollama_summary` (lines 180-200): renders the localized summary
prompt around the text, POSTs it, and returns the trimmed `"response"` field;
`URLError`/`HTTPError`/`JSONDecodeError` degrade to `""`. A non-object JSON
body would escape as an uncaught `AttributeError`. -/
def _ollama_summary (env : Env) (text lang : String) (st : St) :
    Except String String × St :=
  let prompt := pyFormat (_get_text lang).prompts.summary "\x7bcontent\x7d" text
  let st := { st with trace := st.trace ++ [Event.ollama prompt],
                      clock := st.clock + env.ollamaDur prompt }
  match env.ollamaResp prompt with
  | OllamaOutcome.connError => (Except.ok "", st)
  | OllamaOutcome.httpError => (Except.ok "", st)
  | OllamaOutcome.badJson => (Except.ok "", st)
  | OllamaOutcome.okObj r => (Except.ok (pyStrip (r.getD "")), st)
  | OllamaOutcome.okNonObj =>
    (Except.error "AttributeError: object has no attribute get", st)

/-- Source `_ollama_bullets` (lines 203-223): identical to `_ollama_summary`
except for the prompt template. -/
def _ollama_bullets (env : Env) (text lang : String) (st : St) :
    Except String String × St :=
  let prompt := pyFormat (_get_text lang).prompts.bullets "\x7bcontent\x7d" text
  let st := { st with trace := st.trace ++ [Event.ollama prompt],
                      clock := st.clock + env.ollamaDur prompt }
  match env.ollamaResp prompt with
  | OllamaOutcome.connError => (Except.ok "", st)
  | OllamaOutcome.httpError => (Except.ok "", st)
  | OllamaOutcome.badJson => (Except.ok "", st)
  | OllamaOutcome.okObj r => (Except.ok (pyStrip (r.getD "")), st)
  | OllamaOutcome.okNonObj =>
    (Except.error "AttributeError: object has no attribute get", st)

/-- Source `_transcribe_file` (lines 225-252): reads `start = perf_counter()`,
calls the ASR pipeline, optionally calls the two enrichment invokers when the
flag is set and the trimmed text is non-empty, reads `perf_counter()` again
after enrichment, and builds the five-key result dict. Exceptions from the
ASR call or from enrichment propagate to the caller. -/
def _transcribe_file (env : Env) (filepath : String)
    (summarize bullet_list : Bool) (lang : String)
    (display_name : Option String) (st : St) : Except String PyResult × St :=
  let start := st.clock
  let st := { st with trace := st.trace ++ [Event.asr filepath],
                      clock := st.clock + env.asrDur filepath }
  match env.asr filepath with
  | Except.error e => (Except.error e, st)
  | Except.ok res =>
    let text := pyStrip (res.getD "")
    match (if summarize && !text.isEmpty then _ollama_summary env text lang st
           else (Except.ok "", st)) with
    | (Except.error e, st) => (Except.error e, st)
    | (Except.ok summary, st) =>
      match (if bullet_list && !text.isEmpty then _ollama_bullets env text lang st
             else (Except.ok "", st)) with
      | (Except.error e, st) => (Except.error e, st)
      | (Except.ok bullets, st) =>
        let elapsed := st.clock - start
        (Except.ok {
          file := match display_name with
                  | some d => if d.isEmpty then pyBasename filepath else d
                  | none => pyBasename filepath,
          text := text,
          summary := some summary,
          bullets := some bullets,
          seconds := elapsed }, st)

/-- Message standing for `str()` of the `OSError` raised by a failing
`os.remove(path)`; the precise wording is environment-dependent in Python and
matters to no claim — only that it is distinct from the typed converter
messages at the concrete inputs considered. -/
def osRemoveErrorMsg (path : String) : String :=
  "[Errno 13] Permission denied: " ++ path

/-- Source `_convert_to_temp_wav` (lines 258-283): creates a named temporary
WAV file (`delete=False`, so it stays on disk), then runs ffmpeg on it. On
`FileNotFoundError` (binary absent) or `CalledProcessError` (non-zero exit)
the handler removes the partially created temporary file (after an existence
check) and raises a `RuntimeError` with the localized message; the removal is
unguarded there, so a failing removal instead propagates its `OSError` (the
typed error is never raised) and leaves the file on disk. On success the
temporary path is returned and the caller owns its deletion. -/
def _convert_to_temp_wav (env : Env) (filepath lang : String) (st : St) :
    Except String String × St :=
  let errors := (_get_text lang).errors
  let name := env.tempName st.tempCtr
  let st := { st with tempCtr := st.tempCtr + 1, temps := name :: st.temps }
  let st := { st with trace := st.trace ++ [Event.convert filepath],
                      clock := st.clock + env.convDur filepath }
  if env.ffmpeg = false then
    if st.temps.contains name then
      if env.removeOk name then
        (Except.error errors.ffmpeg_not_found, { st with temps := st.temps.erase name })
      else
        (Except.error (osRemoveErrorMsg name), st)
    else
      (Except.error errors.ffmpeg_not_found, st)
  else if env.convertOk filepath = false then
    if st.temps.contains name then
      if env.removeOk name then
        (Except.error errors.wav_conversion_failed, { st with temps := st.temps.erase name })
      else
        (Except.error (osRemoveErrorMsg name), st)
    else
      (Except.error errors.wav_conversion_failed, st)
  else
    (Except.ok name, st)

/-- The result dict appended by `transcribe_many` when a path is falsy or
does not exist (source lines 422-430): only the keys `file`, `text` and
`seconds` are present. -/
def fileNotFoundResult (lang filepath : String) : PyResult :=
  { file := pyBasename (if filepath.isEmpty then (_get_text lang).ui.default_audio_name else filepath),
    text := (_get_text lang).errors.file_not_found,
    summary := none,
    bullets := none,
    seconds := 0 }

/-- Body of the `try` block of `transcribe_many` (source lines 433-447):
convert when needed, then transcribe. Returns the outcome, the value of the
`temp_wav` variable at the end of the block (set only once conversion has
succeeded), and the final state. -/
def runJob (env : Env) (summarize bullet_list : Bool) (lang filepath : String)
    (st : St) : Except String PyResult × Option String × St :=
  if _needs_wav_conversion filepath then
    match _convert_to_temp_wav env filepath lang st with
    | (Except.error e, st') => (Except.error e, none, st')
    | (Except.ok name, st') =>
      let out := _transcribe_file env name summarize bullet_list lang
                   (some (pyBasename filepath)) st'
      (out.1, some name, out.2)
  else
    let out := _transcribe_file env filepath summarize bullet_list lang
                 (some (pyBasename filepath)) st
    (out.1, none, out.2)

/-- The `except Exception` clause of `transcribe_many` (source lines 448-457):
a caught exception becomes a result dict with the localized generic error
message (exception detail interpolated), empty summary/bullets, and zero
elapsed seconds. -/
def jobResult (lang original_name : String) : Except String PyResult → PyResult
  | Except.ok r => r
  | Except.error e =>
    { file := original_name,
      text := pyFormat (_get_text lang).errors.transcription_error "\x7berror\x7d" e,
      summary := some "",
      bullets := some "",
      seconds := 0 }

/-- The `finally` clause of `transcribe_many` (source lines 458-463): if a
temporary path was recorded (truthy) and still exists, try to remove it; an
`OSError` from the removal is swallowed (`except OSError: pass`), in which
case the file persists on disk but nothing else is affected. -/
def cleanupTemp (env : Env) (temp_wav : Option String) (st : St) : St :=
  match temp_wav with
  | some name =>
    if !name.isEmpty && st.temps.contains name then
      if env.removeOk name then { st with temps := st.temps.erase name } else st
    else st
  | none => st

/-- One iteration of the `for filepath in files` loop of `transcribe_many`
(source lines 421-463); every iteration appends exactly one result dict. -/
def transcribe_step (env : Env) (summarize bullet_list : Bool)
    (lang filepath : String) (st : St) : PyResult × St :=
  if filepath.isEmpty || !(st.fs.contains filepath) then
    (fileNotFoundResult lang filepath, st)
  else
    let job := runJob env summarize bullet_list lang filepath st
    (jobResult lang (pyBasename filepath) job.1, cleanupTemp env job.2.1 job.2.2)

/-- The whole `for` loop of `transcribe_many`, in input order. -/
def transcribe_loop (env : Env) (summarize bullet_list : Bool) (lang : String) :
    List String → St → List PyResult × St
  | [], st => ([], st)
  | f :: fs, st =>
    let out := transcribe_step env summarize bullet_list lang f st
    let rest := transcribe_loop env summarize bullet_list lang fs out.2
    (out.1 :: rest.1, rest.2)

/-- Float formatting `"%.2f"` of the integral tick clock. -/
def fixed2 (n : Nat) : String := toString n ++ ".00"

/-- Source `_render_results` (lines 285-369): pure HTML rendering of the
result list. Note the empty-items branch returns the empty string `""` (the
localized `empty_results` text exists in `TEXTS` but is never used here). -/
def _render_results (items : List PyResult) (summarize_enabled bullets_enabled : Bool)
    (lang : String) : String :=
  let ui := (_get_text lang).ui
  if items.isEmpty then ""
  else
    let cards := items.map (fun item =>
      let filename := html_escape item.file
      let text_raw := item.text
      let summary_raw := item.summary.getD ""
      let bullets_raw := item.bullets.getD ""
      let text := html_escape text_raw
      let text_attr := html_escape text_raw
      let summary := html_escape summary_raw
      let summary_attr := html_escape summary_raw
      let bullets := html_escape bullets_raw
      let bullets_attr := html_escape bullets_raw
      let copy_label := html_escape ui.copy_label
      let copy_done := html_escape ui.copy_done
      let copy_transcription_aria := html_escape ui.copy_transcription_aria
      let copy_summary_aria := html_escape ui.copy_summary_aria
      let copy_bullets_aria := html_escape ui.copy_bullets_aria
      let pane_transcription_title := html_escape ui.pane_transcription_title
      let pane_summary_title := html_escape ui.pane_summary_title
      let pane_bullets_title := html_escape ui.pane_bullets_title
      let transcription_empty := html_escape ui.transcription_empty
      let summary_placeholder := html_escape ui.summary_placeholder
      let bullets_placeholder := html_escape ui.bullets_placeholder
      let result_time := html_escape (pyFormat ui.result_time "\x7bseconds:.2f\x7d" (fixed2 item.seconds))
      let text_disabled_attr := if text_raw.isEmpty then "disabled" else ""
      let summary_disabled_attr := if summary_raw.isEmpty then "disabled" else ""
      let bullets_disabled_attr := if bullets_raw.isEmpty then "disabled" else ""
      let pane1 :=
        "<div class=\x27result-pane\x27><div class=\x27pane-header\x27><div class=\x27pane-title\x27>"
        ++ pane_transcription_title
        ++ "</div><button class=\x27copy-btn\x27 type=\x27button\x27 data-copy=\x27"
        ++ text_attr ++ "\x27 data-copied-label=\x27" ++ copy_done
        ++ "\x27 aria-label=\x27" ++ copy_transcription_aria ++ "\x27 "
        ++ text_disabled_attr ++ ">" ++ copy_label
        ++ "</button></div><div class=\x27pane-body\x27>"
        ++ pyOrStr text transcription_empty ++ "</div></div>"
      let pane2 :=
        "<div class=\x27result-pane\x27><div class=\x27pane-header\x27><div class=\x27pane-title\x27>"
        ++ pane_summary_title
        ++ "</div><button class=\x27copy-btn\x27 type=\x27button\x27 data-copy=\x27"
        ++ summary_attr ++ "\x27 data-copied-label=\x27" ++ copy_done
        ++ "\x27 aria-label=\x27" ++ copy_summary_aria ++ "\x27 "
        ++ summary_disabled_attr ++ ">" ++ copy_label
        ++ "</button></div><div class=\x27pane-body\x27>"
        ++ pyOrStr summary summary_placeholder ++ "</div></div>"
      let pane3 :=
        "<div class=\x27result-pane\x27><div class=\x27pane-header\x27><div class=\x27pane-title\x27>"
        ++ pane_bullets_title
        ++ "</div><button class=\x27copy-btn\x27 type=\x27button\x27 data-copy=\x27"
        ++ bullets_attr ++ "\x27 data-copied-label=\x27" ++ copy_done
        ++ "\x27 aria-label=\x27" ++ copy_bullets_aria ++ "\x27 "
        ++ bullets_disabled_attr ++ ">" ++ copy_label
        ++ "</button></div><div class=\x27pane-body\x27>"
        ++ pyOrStr bullets bullets_placeholder ++ "</div></div>"
      let panes := [pane1]
                   ++ (if summarize_enabled then [pane2] else [])
                   ++ (if bullets_enabled then [pane3] else [])
      "<div class=\x27result-card\x27><div class=\x27result-header\x27><div class=\x27result-title\x27>"
      ++ filename ++ "</div></div><div class=\x27result-meta\x27>" ++ result_time
      ++ "</div><div class=\x27result-body\x27>" ++ String.join panes
      ++ "</div></div>")
    "<div class=\x27results-grid\x27>" ++ String.join cards ++ "</div>"

/-- Source `transcribe_many` (lines 410-464): the batch orchestrator. Takes
the (possibly absent) file list, the two enrichment flags and the interface
language; returns the rendered HTML and the ordered result list, plus the
final world state. -/
def transcribe_many (env : Env) (files : Option (List String))
    (summarize bullet_list : Bool) (lang : String) (st : St) :
    (String × List PyResult) × St :=
  match files with
  | none => ((_render_results [] summarize bullet_list lang, []), st)
  | some fs =>
    if fs.isEmpty then ((_render_results [] summarize bullet_list lang, []), st)
    else
      let out := transcribe_loop env summarize bullet_list lang fs st
      ((_render_results out.1 summarize bullet_list lang, out.1), out.2)

/-- One heterogeneous upload entry as accepted by `_normalize_files` and
`_extract_recording_path`: a bare path string, a dict with string values, or
a value of any other type (skipped / unresolvable). -/
inductive FileEntry where
  | str (s : String)
  | dict (entries : List (String × String))
  | other
deriving Repr, DecidableEq

/-- Python `dict.get` over the association-list model of a dict. -/
def dictGet (d : List (String × String)) (k : String) : Option String :=
  (d.find? (fun kv => kv.1 = k)).map (fun kv => kv.2)

/-- One iteration of the `_normalize_files` loop: the path contributed by one
entry, if any (source lines 387-393). -/
def normEntry : FileEntry → Option String
  | FileEntry.str s => some s
  | FileEntry.dict d =>
    let path := pyOrOpt (pyOrOpt (dictGet d "path") (dictGet d "name")) (dictGet d "file")
    if (path.getD "").isEmpty then none else some (path.getD "")
  | FileEntry.other => none

/-- Source `_normalize_files` (lines 383-394). -/
def _normalize_files (files : Option (List FileEntry)) : List String :=
  match files with
  | none => []
  | some fs => if fs.isEmpty then [] else fs.filterMap normEntry

/-- Source `_extract_recording_path` (lines 371-381): `None` for a missing
capture, the string itself for a string capture, the first truthy of the
`path`/`name`/`file` keys for a dict capture, `None` otherwise. -/
def _extract_recording_path (recording : Option FileEntry) : Option String :=
  match recording with
  | none => none
  | some (FileEntry.str s) => some s
  | some (FileEntry.dict d) =>
    let tryKey := fun (k : String) =>
      match dictGet d k with
      | some v => if v.isEmpty then none else some v
      | none => none
    match tryKey "path" with
    | some v => some v
    | none =>
      match tryKey "name" with
      | some v => some v
      | none => tryKey "file"
  | some FileEntry.other => none

/-- Source `add_recording_to_queue` (lines 396-408): with no resolvable
capture, returns the normalized existing list and the localized
`record_missing` message; otherwise appends the capture path and returns the
localized `record_added` message with the basename interpolated. The third
component models the `None` returned to clear the recording widget. -/
def add_recording_to_queue (recording : Option FileEntry)
    (files : Option (List FileEntry)) (lang : String) :
    List String × String × Unit :=
  let ui := (_get_text lang).ui
  let recording_path := (_extract_recording_path recording).getD ""
  if recording_path.isEmpty then
    (_normalize_files files, ui.record_missing, ())
  else
    let updated_files := _normalize_files files ++ [recording_path]
    (updated_files,
     pyFormat ui.record_added "\x7bname\x7d" (pyBasename recording_path), ())

/-- Sample oracle environment for concrete witness instances: ffmpeg present
and succeeding, ASR answering " hello world " in 3 ticks, the enrichment
endpoint answering a JSON object with response "summary text" in 5 ticks. -/
def sampleEnv : Env := {
  ffmpeg := true,
  convertOk := fun _ => true,
  convDur := fun _ => 1,
  tempName := fun _ => "/tmp/whisper_tmp_0.wav",
  removeOk := fun _ => true,
  asr := fun _ => Except.ok (some " hello world "),
  asrDur := fun _ => 3,
  ollamaResp := fun _ => OllamaOutcome.okObj (some "summary text"),
  ollamaDur := fun _ => 5 }

/-- Variant of `sampleEnv` with the ffmpeg binary absent. -/
def noFfmpegEnv : Env := { sampleEnv with ffmpeg := false }

/-- Variant of `sampleEnv` whose enrichment endpoint always fails with a
connection error. -/
def connFailEnv : Env := { sampleEnv with ollamaResp := fun _ => OllamaOutcome.connError }

/-- Variant of `sampleEnv` for which every `os.remove` call fails. -/
def removeFailEnv : Env := { sampleEnv with removeOk := fun _ => false }

/-- Variant of `sampleEnv` with the ffmpeg binary absent and every
`os.remove` call failing. -/
def noFfmpegRemoveFailEnv : Env :=
  { sampleEnv with ffmpeg := false, removeOk := fun _ => false }

/-- Sample starting state for concrete witness instances: two files exist. -/
def sampleSt : St :=
  { fs := ["a.wav", "b.mp3"], temps := [], clock := 0, tempCtr := 0, trace := [] }

example : _needs_wav_conversion "a.mp3" = true := by decide
example : _needs_wav_conversion "/x/y.WAV" = false := by decide
example : _needs_wav_conversion "noext" = true := by decide
example : pyBasename "/tmp/a/b.wav" = "b.wav" := by decide
example : splitextExt "/a.b/c" = "" := by decide
example : splitextExt ".bashrc" = "" := by decide
example : splitextExt "a.tar.gz" = ".gz" := by decide
example : pyFormat "Errore: \x7berror\x7d!" "\x7berror\x7d" "x" = "Errore: x!" := by decide
example : html_escape "a<b>&\x27c\"" = "a&lt;b&gt;&amp;&#x27;c&quot;" := by decide
example : pyStrip "  ciao \n" = "ciao" := by decide

/-! Helper lemmas about the state threaded through the pipeline. They are
shared by several of the claim theorems below. -/

/-- The summary invoker only appends a trace event and advances the clock:
filesystem, temporary files and temporary-name counter are untouched. -/
theorem ollama_summary_st (env : Env) (text lang : String) (st : St) :
    ((_ollama_summary env text lang st).2).fs = st.fs ∧
    ((_ollama_summary env text lang st).2).tempCtr = st.tempCtr ∧
    ((_ollama_summary env text lang st).2).temps = st.temps := by
  simp only [_ollama_summary]
  split <;> exact ⟨rfl, rfl, rfl⟩

/-- The bullets invoker only appends a trace event and advances the clock. -/
theorem ollama_bullets_st (env : Env) (text lang : String) (st : St) :
    ((_ollama_bullets env text lang st).2).fs = st.fs ∧
    ((_ollama_bullets env text lang st).2).tempCtr = st.tempCtr ∧
    ((_ollama_bullets env text lang st).2).temps = st.temps := by
  simp only [_ollama_bullets]
  split <;> exact ⟨rfl, rfl, rfl⟩

/-- State effect of the conditional summary-enrichment call inside
`_transcribe_file`. -/
theorem ite_summary_st (env : Env) (c : Bool) (text lang : String) (st : St) :
    ((if c then _ollama_summary env text lang st else (Except.ok "", st)).2).fs = st.fs ∧
    ((if c then _ollama_summary env text lang st else (Except.ok "", st)).2).tempCtr = st.tempCtr ∧
    ((if c then _ollama_summary env text lang st else (Except.ok "", st)).2).temps = st.temps := by
  cases c
  · exact ⟨rfl, rfl, rfl⟩
  · simpa using ollama_summary_st env text lang st

/-- State effect of the conditional bullets-enrichment call inside
`_transcribe_file`. -/
theorem ite_bullets_st (env : Env) (c : Bool) (text lang : String) (st : St) :
    ((if c then _ollama_bullets env text lang st else (Except.ok "", st)).2).fs = st.fs ∧
    ((if c then _ollama_bullets env text lang st else (Except.ok "", st)).2).tempCtr = st.tempCtr ∧
    ((if c then _ollama_bullets env text lang st else (Except.ok "", st)).2).temps = st.temps := by
  cases c
  · exact ⟨rfl, rfl, rfl⟩
  · simpa using ollama_bullets_st env text lang st

/-- The transcription invoker never touches the filesystem, the temporary
files or the temporary-name counter. -/
theorem tf_st (env : Env) (f : String) (s b : Bool) (lang : String)
    (dn : Option String) (st : St) :
    ((_transcribe_file env f s b lang dn st).2).fs = st.fs ∧
    ((_transcribe_file env f s b lang dn st).2).tempCtr = st.tempCtr ∧
    ((_transcribe_file env f s b lang dn st).2).temps = st.temps := by
  simp only [_transcribe_file]
  split
  · exact ⟨rfl, rfl, rfl⟩
  · split
    · rename_i e st1 heq
      have h2 := congrArg Prod.snd heq
      simp only at h2
      rw [← h2]
      exact ite_summary_st ..
    · rename_i summary st1 heq
      have h2 := congrArg Prod.snd heq
      simp only at h2
      have hst1 : st1.fs = st.fs ∧ st1.tempCtr = st.tempCtr ∧ st1.temps = st.temps := by
        rw [← h2]
        exact ite_summary_st ..
      split
      · rename_i e st2 heq2
        have h3 := congrArg Prod.snd heq2
        simp only at h3
        rw [← h3]
        exact ⟨(ite_bullets_st ..).1.trans hst1.1,
               (ite_bullets_st ..).2.1.trans hst1.2.1,
               (ite_bullets_st ..).2.2.trans hst1.2.2⟩
      · rename_i bullets st2 heq2
        have h3 := congrArg Prod.snd heq2
        simp only at h3
        rw [← h3]
        exact ⟨(ite_bullets_st ..).1.trans hst1.1,
               (ite_bullets_st ..).2.1.trans hst1.2.1,
               (ite_bullets_st ..).2.2.trans hst1.2.2⟩

/-- The converter never touches the submitted input files, whatever happens
to the temporary file. -/
theorem convert_fs (env : Env) (f lang : String) (st : St) :
    ((_convert_to_temp_wav env f lang st).2).fs = st.fs := by
  simp only [_convert_to_temp_wav]
  repeat' split
  all_goals rfl

/-- Full characterization of the format converter when removal of the drawn
temporary name succeeds: the temporary WAV file is created, the ffmpeg
subprocess is attempted (one trace event), and on either failure mode
(binary absent / non-zero exit) the partially created temporary file is
removed again before the localized typed error is raised; only on success
does the temporary file survive, owned by the caller. -/
theorem convert_spec (env : Env) (f lang : String) (st : St)
    (hrm : env.removeOk (env.tempName st.tempCtr) = true) :
    _convert_to_temp_wav env f lang st =
      ((if env.ffmpeg = false then
          Except.error (_get_text lang).errors.ffmpeg_not_found
        else if env.convertOk f = false then
          Except.error (_get_text lang).errors.wav_conversion_failed
        else Except.ok (env.tempName st.tempCtr)),
       { fs := st.fs,
         temps := if env.ffmpeg && env.convertOk f then
                    env.tempName st.tempCtr :: st.temps
                  else st.temps,
         clock := st.clock + env.convDur f,
         tempCtr := st.tempCtr + 1,
         trace := st.trace ++ [Event.convert f] }) := by
  cases hf : env.ffmpeg <;> cases hc : env.convertOk f <;>
    simp [_convert_to_temp_wav, hf, hc, hrm]

/-- The try-block body never touches the submitted input files. -/
theorem runJob_fs (env : Env) (s b : Bool) (lang f : String) (st : St) :
    ((runJob env s b lang f st).2.2).fs = st.fs := by
  simp only [runJob]
  split
  · split
    · rename_i e st1 heq
      have h2 := congrArg Prod.snd heq
      simp only at h2
      rw [← h2]
      exact convert_fs env f lang st
    · rename_i name st1 heq
      have h2 := congrArg Prod.snd heq
      simp only at h2
      rw [(tf_st env name s b lang (some (pyBasename f)) st1).1, ← h2]
      exact convert_fs env f lang st
  · exact (tf_st env f s b lang (some (pyBasename f)) st).1

/-- The finally-clause cleanup only ever touches the temporary files: the
input filesystem, the clock, the temporary-name counter and the
capability-invocation trace are returned unchanged, whether or not the
removal succeeds — a removal failure is swallowed. -/
theorem cleanupTemp_effects (env : Env) (t : Option String) (st : St) :
    (cleanupTemp env t st).fs = st.fs ∧ (cleanupTemp env t st).clock = st.clock ∧
    (cleanupTemp env t st).tempCtr = st.tempCtr ∧
    (cleanupTemp env t st).trace = st.trace := by
  cases t with
  | none => exact ⟨rfl, rfl, rfl, rfl⟩
  | some name =>
    simp only [cleanupTemp]
    split
    · split <;> exact ⟨rfl, rfl, rfl, rfl⟩
    · exact ⟨rfl, rfl, rfl, rfl⟩

/-- No loop iteration of the orchestrator ever changes the set of submitted
input files that exist. -/
theorem step_fs (env : Env) (s b : Bool) (lang f : String) (st : St) :
    ((transcribe_step env s b lang f st).2).fs = st.fs := by
  simp only [transcribe_step]
  split
  · rfl
  · rw [(cleanupTemp_effects env ((runJob env s b lang f st).2.1)
          ((runJob env s b lang f st).2.2)).1]
    exact runJob_fs env s b lang f st

/-- Each loop iteration restores the temporary files exactly, provided every
removal attempt succeeds and drawn temporary names are non-empty paths: any
temporary conversion artifact created for the file has been deleted again by
the time the iteration ends, on every control path. -/
theorem step_temps (env : Env) (s b : Bool) (lang f : String) (st : St)
    (hrm : ∀ n, env.removeOk n = true)
    (hname : ∀ k, (env.tempName k).isEmpty = false) :
    ((transcribe_step env s b lang f st).2).temps = st.temps := by
  simp only [transcribe_step, runJob]
  split
  · rfl
  · split
    · cases hf : env.ffmpeg <;> cases hc : env.convertOk f <;>
        simp [convert_spec env f lang st (hrm _), hf, hc, tf_st, cleanupTemp,
              hname st.tempCtr, hrm]
    · simp [tf_st, cleanupTemp]

/-- The orchestrator loop produces exactly one result per input file. -/
theorem loop_length (env : Env) (s b : Bool) (lang : String) (fs : List String)
    (st : St) :
    (transcribe_loop env s b lang fs st).1.length = fs.length := by
  induction fs generalizing st with
  | nil => rfl
  | cons f rest ih => simp [transcribe_loop, ih]

/-- The orchestrator loop restores the filesystem exactly. -/
theorem loop_fs (env : Env) (s b : Bool) (lang : String) (fs : List String)
    (st : St) :
    ((transcribe_loop env s b lang fs st).2).fs = st.fs := by
  induction fs generalizing st with
  | nil => rfl
  | cons f rest ih => simp [transcribe_loop, ih, step_fs]

/-- The orchestrator loop restores the temporary files exactly, provided
every removal attempt succeeds and drawn temporary names are non-empty. -/
theorem loop_temps (env : Env) (s b : Bool) (lang : String)
    (fs : List String) (st : St) (hrm : ∀ n, env.removeOk n = true)
    (hname : ∀ k, (env.tempName k).isEmpty = false) :
    ((transcribe_loop env s b lang fs st).2).temps = st.temps := by
  induction fs generalizing st with
  | nil => rfl
  | cons f rest ih =>
    simp only [transcribe_loop]
    rw [ih ((transcribe_step env s b lang f st).2),
        step_temps env s b lang f st hrm hname]

/-- The i-th result of the orchestrator loop is the per-file processing of
the i-th input, run in the state left behind by the first i inputs. -/
theorem loop_getD (env : Env) (s b : Bool) (lang : String) (fs : List String)
    (st : St) (i : Nat) (h : i < fs.length) (d : PyResult) :
    (transcribe_loop env s b lang fs st).1.getD i d =
      (transcribe_step env s b lang (fs.getD i "")
        ((transcribe_loop env s b lang (fs.take i) st).2)).1 := by
  induction fs generalizing st i with
  | nil => cases h
  | cons f rest ih =>
    cases i with
    | zero => simp [transcribe_loop]
    | succ i =>
      simp only [transcribe_loop, List.getD_cons_succ, List.take_succ_cons]
      exact ih _ _ (by simpa using h) 

/-- Shape of a successful transcription-invoker run: the result carries both
enrichment keys (empty when the mode was not requested), its seconds field is
exactly the clock advance across the whole invoker call (ASR plus any
enrichment), and with no enrichment requested that advance is the ASR
duration alone. -/
theorem tf_success (env : Env) (f : String) (s b : Bool) (lang : String)
    (dn : Option String) (st : St) (r : PyResult) (st' : St)
    (h : _transcribe_file env f s b lang dn st = (Except.ok r, st')) :
    r.seconds = st'.clock - st.clock ∧
    (∃ su, r.summary = some su ∧ (s = false → su = "")) ∧
    (∃ bu, r.bullets = some bu ∧ (b = false → bu = "")) ∧
    (s = false → b = false → st'.clock = st.clock + env.asrDur f) := by
  simp only [_transcribe_file] at h
  split at h
  · exact absurd (congrArg Prod.fst h) (by simp)
  · split at h
    · exact absurd (congrArg Prod.fst h) (by simp)
    · rename_i summary st1 heqs
      split at h
      · exact absurd (congrArg Prod.fst h) (by simp)
      · rename_i bullets st2 heqb
        have hr := congrArg Prod.fst h
        have hst := congrArg Prod.snd h
        simp only at hr hst
        injection hr with hr
        subst hst
        subst hr
        refine ⟨rfl, ⟨summary, rfl, ?_⟩, ⟨bullets, rfl, ?_⟩, ?_⟩
        · intro hs
          rw [hs] at heqs
          simp at heqs
          exact heqs.1.symm
        · intro hb
          rw [hb] at heqb
          simp at heqb
          exact heqb.1.symm
        · intro hs hb
          rw [hs] at heqs
          rw [hb] at heqb
          simp at heqs heqb
          rw [← heqb.2, ← heqs.2]

/-- A successful try-block outcome comes from the transcription invoker, so
it has the successful-result shape for the enrichment keys. -/
theorem runJob_ok (env : Env) (s b : Bool) (lang f : String) (st : St)
    (r : PyResult) (h : (runJob env s b lang f st).1 = Except.ok r) :
    (∃ su, r.summary = some su ∧ (s = false → su = "")) ∧
    (∃ bu, r.bullets = some bu ∧ (b = false → bu = "")) := by
  simp only [runJob] at h
  split at h
  · split at h
    · simp only at h
      exact absurd h (by simp)
    · simp only at h
      rename_i name st1 heqc
      have := tf_success env name s b lang (some (pyBasename f)) st1 r
        (_transcribe_file env name s b lang (some (pyBasename f)) st1).2
        (by rw [← h])
      exact ⟨this.2.1, this.2.2.1⟩
  · simp only at h
    have := tf_success env f s b lang (some (pyBasename f)) st r
      (_transcribe_file env f s b lang (some (pyBasename f)) st).2
      (by rw [← h])
    exact ⟨this.2.1, this.2.2.1⟩

/-- A falsy or non-existing path short-circuits the loop iteration: the
file-not-found record is appended and the state (filesystem, clock,
temporary counter, and the capability-invocation trace) is left untouched —
no converter, transcription or enrichment call happens for that path. -/
theorem step_missing (env : Env) (s b : Bool) (lang f : String) (st : St)
    (h : f.isEmpty = true ∨ st.fs.contains f = false) :
    transcribe_step env s b lang f st = (fileNotFoundResult lang f, st) := by
  simp only [transcribe_step]
  rcases h with h | h
  · simp [h]
  · simp [h]
    intro _ hmem
    exact absurd hmem (by simpa using h)

/-- Branch shape of one loop iteration's result record: an absent summary key
happens only on the file-not-found branch (where the bullets key is absent
too, the text is the localized not-found message and the seconds are zero);
the bullets key is absent only when the summary key is; and an unrequested
enrichment mode yields either an absent key (not-found branch) or the empty
string. -/
theorem step_shape (env : Env) (s b : Bool) (lang f : String) (st : St) :
    ((transcribe_step env s b lang f st).1.summary = none →
      (transcribe_step env s b lang f st).1.text = (_get_text lang).errors.file_not_found ∧
      (transcribe_step env s b lang f st).1.bullets = none ∧
      (transcribe_step env s b lang f st).1.seconds = 0) ∧
    ((transcribe_step env s b lang f st).1.bullets = none →
      (transcribe_step env s b lang f st).1.summary = none) ∧
    (s = false → (transcribe_step env s b lang f st).1.summary = none ∨
      (transcribe_step env s b lang f st).1.summary = some "") ∧
    (b = false → (transcribe_step env s b lang f st).1.bullets = none ∨
      (transcribe_step env s b lang f st).1.bullets = some "") := by
  simp only [transcribe_step]
  split
  · simp [fileNotFoundResult]
  · rcases hjob : (runJob env s b lang f st).1 with e | r
    · simp [jobResult, hjob]
    · obtain ⟨⟨su, hsu, hsu0⟩, ⟨bu, hbu, hbu0⟩⟩ := runJob_ok env s b lang f st r hjob
      simp only [hjob, jobResult]
      refine ⟨?_, ?_, ?_, ?_⟩
      · intro hnone
        rw [hsu] at hnone
        simp at hnone
      · intro hnone
        rw [hbu] at hnone
        simp at hnone
      · intro hs
        right
        rw [hsu, hsu0 hs]
      · intro hb
        right
        rw [hbu, hbu0 hb]

/-- Every record produced by the orchestrator loop has the branch shape of
`step_shape`. -/
theorem loop_shape (env : Env) (s b : Bool) (lang : String) (fs : List String)
    (st : St) (r : PyResult)
    (hr : r ∈ (transcribe_loop env s b lang fs st).1) :
    (r.summary = none →
      r.text = (_get_text lang).errors.file_not_found ∧
      r.bullets = none ∧ r.seconds = 0) ∧
    (r.bullets = none → r.summary = none) ∧
    (s = false → r.summary = none ∨ r.summary = some "") ∧
    (b = false → r.bullets = none ∨ r.bullets = some "") := by
  induction fs generalizing st with
  | nil => cases hr
  | cons f rest ih =>
    simp only [transcribe_loop, List.mem_cons] at hr
    rcases hr with rfl | hr
    · exact step_shape env s b lang f st
    · exact ih _ hr

/-- An out-of-range-safe lookup form of the file-not-found behaviour at the
level of the whole loop: a falsy or (at batch start, hence at every
iteration, since iterations restore the filesystem) non-existing i-th path
yields exactly the file-not-found record at position i. -/
theorem loop_missing (env : Env) (s b : Bool) (lang : String)
    (files : List String) (st : St) (i : Nat) (h : i < files.length)
    (hm : (files.getD i "").isEmpty = true ∨
          st.fs.contains (files.getD i "") = false) :
    (transcribe_loop env s b lang files st).1.getD i dummyResult =
      fileNotFoundResult lang (files.getD i "") := by
  rw [loop_getD env s b lang files st i h dummyResult]
  rcases hm with hm | hm
  · rw [step_missing _ _ _ _ _ _ (Or.inl hm)]
  · rw [step_missing _ _ _ _ _ _ (Or.inr (by rw [loop_fs]; exact hm))]

/-- Normalization is the identity on a list of plain path strings (the shape
the UI hands over when entries are filepaths). -/
theorem normalize_str_list (files : List String) :
    _normalize_files (some (files.map FileEntry.str)) = files := by
  cases files with
  | nil => rfl
  | cons f rest =>
    simp [_normalize_files, normEntry, List.filterMap_map, Function.comp]
    induction rest with
    | nil => rfl
    | cons g gs ihg =>
      simp only [List.filterMap_cons]
      rw [show (normEntry ∘ FileEntry.str) g = some g from rfl]
      rw [ihg]

/-- The orchestrator's result list and final state coincide with the loop's,
for any plain file list (empty or not). -/
theorem many_eq_loop (env : Env) (s b : Bool) (lang : String)
    (files : List String) (st : St) :
    (transcribe_many env (some files) s b lang st).1.2 =
      (transcribe_loop env s b lang files st).1 ∧
    (transcribe_many env (some files) s b lang st).2 =
      (transcribe_loop env s b lang files st).2 := by
  cases files <;> exact ⟨rfl, rfl⟩

/-- C1: For every list of input file paths and every setting of the
summarize/bullets flags and language, `transcribe_many` returns a results
list with exactly one entry per input path, in the same order as the inputs
(the i-th output record is exactly the per-file processing of the i-th input
path, run in the state left by the first i inputs), with no entry omitted,
even when individual files fail. -/
theorem C1_one_result_per_input_in_order (env : Env) (files : List String)
    (s b : Bool) (lang : String) (st : St) :
    ((transcribe_many env (some files) s b lang st).1.2).length = files.length ∧
    (∀ i, i < files.length →
      ((transcribe_many env (some files) s b lang st).1.2).getD i dummyResult =
        (transcribe_step env s b lang (files.getD i "")
          ((transcribe_loop env s b lang (files.take i) st).2)).1) := by
  refine ⟨?_, fun i hi => ?_⟩
  · rw [(many_eq_loop env s b lang files st).1, loop_length]
  · rw [(many_eq_loop env s b lang files st).1]
    exact loop_getD env s b lang files st i hi dummyResult

/-- Witness for C1 at a concrete batch of two files, one of which does not
exist. -/
theorem C1_witness :
    ((transcribe_many sampleEnv (some ["a.wav", "ghost.wav"]) false false "it"
        sampleSt).1.2).length = (["a.wav", "ghost.wav"] : List String).length ∧
    ((transcribe_many sampleEnv (some ["a.wav", "ghost.wav"]) false false "it"
        sampleSt).1.2).getD 1 dummyResult =
      (transcribe_step sampleEnv false false "it"
        ((["a.wav", "ghost.wav"] : List String).getD 1 "")
        ((transcribe_loop sampleEnv false false "it"
          ((["a.wav", "ghost.wav"] : List String).take 1) sampleSt).2)).1 :=
  ⟨(C1_one_result_per_input_in_order sampleEnv ["a.wav", "ghost.wav"] false false
      "it" sampleSt).1,
   (C1_one_result_per_input_in_order sampleEnv ["a.wav", "ghost.wav"] false false
      "it" sampleSt).2 1 (by decide)⟩

/-- C2: a falsy or non-existing input path yields (at its input position) the
record whose transcript is the localized file-not-found message with elapsed
seconds exactly 0; the loop iteration returns the state completely unchanged
(same filesystem, clock, temporary counter and capability trace), so neither
the format converter nor the transcription capability nor any enrichment
capability is invoked for that path. -/
theorem C2_missing_path_result (env : Env) (s b : Bool) (lang : String)
    (st : St) :
    (∀ f, f.isEmpty = true ∨ st.fs.contains f = false →
      transcribe_step env s b lang f st = (fileNotFoundResult lang f, st)) ∧
    (∀ files i, i < files.length →
      ((files.getD i "").isEmpty = true ∨
        st.fs.contains (files.getD i "") = false) →
      ((transcribe_many env (some files) s b lang st).1.2).getD i dummyResult =
        fileNotFoundResult lang (files.getD i "")) := by
  refine ⟨fun f h => step_missing env s b lang f st h, fun files i hi hm => ?_⟩
  rw [(many_eq_loop env s b lang files st).1]
  exact loop_missing env s b lang files st i hi hm

/-- Witness for C2 at an empty path and a non-existing path. -/
theorem C2_witness :
    transcribe_step sampleEnv true true "it" "" sampleSt =
      (fileNotFoundResult "it" "", sampleSt) ∧
    ((transcribe_many sampleEnv (some ["ghost.wav"]) true true "it"
        sampleSt).1.2).getD 0 dummyResult = fileNotFoundResult "it" "ghost.wav" :=
  ⟨(C2_missing_path_result sampleEnv true true "it" sampleSt).1 ""
      (Or.inl (by decide)),
   (C2_missing_path_result sampleEnv true true "it" sampleSt).2 ["ghost.wav"] 0
      (by decide) (Or.inr (by decide))⟩

/-- C3 counterexample: removal can fail, refuting the claim at concrete
inputs. First, with every removal failing, a batch over one convertible file
ends with the temporary WAV file still on disk — it is not "deleted before
the batch returns" (the finally clause swallowed the failure and the file
persisted). Second, with the converter binary absent and removal failing,
the converter propagates the removal's own error in place of the typed
ffmpeg message and leaves the file on disk — a deletion failure there is not
swallowed: it escalates out of the converter. -/
theorem C3_counterexample :
    ((transcribe_many removeFailEnv (some ["b.mp3"]) false false "it"
        sampleSt).2).temps = ["/tmp/whisper_tmp_0.wav"] ∧
    _convert_to_temp_wav noFfmpegRemoveFailEnv "b.mp3" "it" sampleSt =
      (Except.error (osRemoveErrorMsg "/tmp/whisper_tmp_0.wav"),
       { fs := ["a.wav", "b.mp3"], temps := ["/tmp/whisper_tmp_0.wav"],
         clock := 1, tempCtr := 1, trace := [Event.convert "b.mp3"] }) ∧
    osRemoveErrorMsg "/tmp/whisper_tmp_0.wav" ≠
      (_get_text "it").errors.ffmpeg_not_found :=
  ⟨by rfl, by rfl, by decide⟩

/-- C3 amended: provided every temporary-file removal attempt succeeds (and
drawn temporary names are non-empty paths), every temporary WAV file created
by the converter is deleted before the batch returns, on every exit path: on
conversion failure the partial file is deleted before the typed error
propagates, and after each job the finally clause deletes it whether
transcription succeeded or raised. A removal failure in the finally clause
is swallowed: the cleanup touches nothing but the temporary files, and the
job's record is fully determined before the cleanup runs, so the failure can
neither change the result nor abort the batch — only the file persists. A
removal failure inside the converter's failure handlers is not swallowed:
the removal error propagates in place of the typed conversion error, with
the file left on disk (it is still caught at the per-file boundary). -/
theorem C3_amended_temp_wav_cleanup :
    (∀ (env : Env) (f lang : String) (st : St) (e : String) (st' : St),
      env.removeOk (env.tempName st.tempCtr) = true →
      _convert_to_temp_wav env f lang st = (Except.error e, st') →
      st'.temps = st.temps) ∧
    (∀ (env : Env) (files : Option (List String)) (s b : Bool) (lang : String)
      (st : St),
      (∀ n, env.removeOk n = true) →
      (∀ k, (env.tempName k).isEmpty = false) →
      ((transcribe_many env files s b lang st).2).temps = st.temps) ∧
    (∀ (env : Env) (t : Option String) (st : St),
      (cleanupTemp env t st).fs = st.fs ∧
      (cleanupTemp env t st).clock = st.clock ∧
      (cleanupTemp env t st).tempCtr = st.tempCtr ∧
      (cleanupTemp env t st).trace = st.trace) ∧
    (∀ (env : Env) (s b : Bool) (lang f : String) (st : St),
      (transcribe_step env s b lang f st).1 =
        (if f.isEmpty || !(st.fs.contains f) then fileNotFoundResult lang f
         else jobResult lang (pyBasename f) (runJob env s b lang f st).1)) ∧
    (∀ (env : Env) (f lang : String) (st : St),
      env.ffmpeg = false →
      env.removeOk (env.tempName st.tempCtr) = false →
      _convert_to_temp_wav env f lang st =
        (Except.error (osRemoveErrorMsg (env.tempName st.tempCtr)),
         { st with temps := env.tempName st.tempCtr :: st.temps,
                   clock := st.clock + env.convDur f,
                   tempCtr := st.tempCtr + 1,
                   trace := st.trace ++ [Event.convert f] })) := by
  refine ⟨?_, ?_, ?_, ?_, ?_⟩
  · intro env f lang st e st' hrm h
    rw [convert_spec env f lang st hrm] at h
    have htemps := congrArg Prod.snd h
    have hfst := congrArg Prod.fst h
    simp only at htemps hfst
    rw [← htemps]
    cases hffm : env.ffmpeg <;> cases hcok : env.convertOk f <;>
      simp [hffm, hcok] at hfst ⊢
  · intro env files s b lang st hrm hname
    cases files with
    | none => rfl
    | some fs =>
      rw [(many_eq_loop env s b lang fs st).2,
          loop_temps env s b lang fs st hrm hname]
  · exact fun env t st => cleanupTemp_effects env t st
  · intro env s b lang f st
    simp only [transcribe_step]
    split <;> rfl
  · intro env f lang st henv hrmf
    simp [_convert_to_temp_wav, henv, hrmf]

/-- Witness for the amended C3: converter failure with removal succeeding, a
whole batch with removals succeeding, the cleanup-effects clause at a failing
removal, the result-fixed-before-cleanup clause, and the escalating
converter-handler removal failure, all at concrete inputs. -/
theorem C3_witness :
    ({ fs := ["a.wav", "b.mp3"], temps := [], clock := 1, tempCtr := 1,
       trace := [Event.convert "b.mp3"] } : St).temps = sampleSt.temps ∧
    ((transcribe_many sampleEnv (some ["b.mp3"]) false false "it"
        sampleSt).2).temps = sampleSt.temps ∧
    ((cleanupTemp removeFailEnv (some "/tmp/whisper_tmp_0.wav") sampleSt).fs =
        sampleSt.fs ∧
      (cleanupTemp removeFailEnv (some "/tmp/whisper_tmp_0.wav") sampleSt).clock =
        sampleSt.clock ∧
      (cleanupTemp removeFailEnv (some "/tmp/whisper_tmp_0.wav") sampleSt).tempCtr =
        sampleSt.tempCtr ∧
      (cleanupTemp removeFailEnv (some "/tmp/whisper_tmp_0.wav") sampleSt).trace =
        sampleSt.trace) ∧
    (transcribe_step removeFailEnv false false "it" "b.mp3" sampleSt).1 =
      (if ("b.mp3" : String).isEmpty || !(sampleSt.fs.contains "b.mp3") then
         fileNotFoundResult "it" "b.mp3"
       else jobResult "it" (pyBasename "b.mp3")
         (runJob removeFailEnv false false "it" "b.mp3" sampleSt).1) ∧
    _convert_to_temp_wav noFfmpegRemoveFailEnv "b.mp3" "it" sampleSt =
      (Except.error (osRemoveErrorMsg (noFfmpegRemoveFailEnv.tempName
         sampleSt.tempCtr)),
       { sampleSt with
           temps := noFfmpegRemoveFailEnv.tempName sampleSt.tempCtr ::
             sampleSt.temps,
           clock := sampleSt.clock + noFfmpegRemoveFailEnv.convDur "b.mp3",
           tempCtr := sampleSt.tempCtr + 1,
           trace := sampleSt.trace ++ [Event.convert "b.mp3"] }) :=
  ⟨C3_amended_temp_wav_cleanup.1 noFfmpegEnv "b.mp3" "it" sampleSt
      (_get_text "it").errors.ffmpeg_not_found
      { fs := ["a.wav", "b.mp3"], temps := [], clock := 1, tempCtr := 1,
        trace := [Event.convert "b.mp3"] } (by rfl) (by rfl),
   C3_amended_temp_wav_cleanup.2.1 sampleEnv (some ["b.mp3"]) false false "it"
      sampleSt (fun _ => rfl) (fun _ => rfl),
   C3_amended_temp_wav_cleanup.2.2.1 removeFailEnv
      (some "/tmp/whisper_tmp_0.wav") sampleSt,
   C3_amended_temp_wav_cleanup.2.2.2.1 removeFailEnv false false "it" "b.mp3"
      sampleSt,
   C3_amended_temp_wav_cleanup.2.2.2.2 noFfmpegRemoveFailEnv "b.mp3" "it"
      sampleSt (by rfl) (by rfl)⟩

/-- C4 counterexample: at a concrete input with an ASR duration of 3 ticks
and a summary-enrichment duration of 5 ticks, the result's seconds field is 8
— the measured interval is read after enrichment, so it does not equal the
measurement of the transcription call itself (3), contrary to the claim. -/
theorem C4_counterexample :
    (_transcribe_file sampleEnv "a.wav" true false "it" (some "a.wav")
        { fs := ["a.wav"], temps := [], clock := 0, tempCtr := 0, trace := [] }).1 =
      Except.ok { file := "a.wav", text := "hello world",
                  summary := some "summary text", bullets := some "",
                  seconds := 8 } ∧
    (8 : Nat) ≠ sampleEnv.asrDur "a.wav" :=
  ⟨by rfl, by decide⟩

/-- C4 amended: the transcription invoker reads the clock immediately before
the speech-recognition call and again only after the optional enrichment
calls, so on success the seconds field equals the wall-clock advance across
the whole invoker call (transcription plus any enrichment performed); it
equals the duration of the transcription call alone exactly when no
enrichment mode is requested. -/
theorem C4_amended_seconds_measure (env : Env) (f : String) (s b : Bool)
    (lang : String) (dn : Option String) (st : St) (r : PyResult) (st' : St)
    (h : _transcribe_file env f s b lang dn st = (Except.ok r, st')) :
    r.seconds = st'.clock - st.clock ∧
    (s = false → b = false → r.seconds = env.asrDur f) := by
  obtain ⟨h1, _, _, h4⟩ := tf_success env f s b lang dn st r st' h
  refine ⟨h1, fun hs hb => ?_⟩
  rw [h1, h4 hs hb, Nat.add_sub_cancel_left]

/-- Witness for the amended C4 at a concrete no-enrichment run. -/
theorem C4_witness :
    ({ file := "a.wav", text := "hello world", summary := some "",
       bullets := some "", seconds := 3 } : PyResult).seconds =
      ({ fs := ["a.wav"], temps := [], clock := 3, tempCtr := 0,
         trace := [Event.asr "a.wav"] } : St).clock -
      ({ fs := ["a.wav"], temps := [], clock := 0, tempCtr := 0, trace := [] } : St).clock ∧
    (false = false → false = false →
      ({ file := "a.wav", text := "hello world", summary := some "",
         bullets := some "", seconds := 3 } : PyResult).seconds =
        sampleEnv.asrDur "a.wav") :=
  C4_amended_seconds_measure sampleEnv "a.wav" false false "it" (some "a.wav")
    { fs := ["a.wav"], temps := [], clock := 0, tempCtr := 0, trace := [] }
    { file := "a.wav", text := "hello world", summary := some "",
      bullets := some "", seconds := 3 }
    { fs := ["a.wav"], temps := [], clock := 3, tempCtr := 0, trace := [Event.asr "a.wav"] }
    (by rfl)

/-- C5: the claim (and the spec) say the renderer returns an explicit
localized "no results" representation for the empty result list; the code
returns the empty string for every flag and language setting, while the
localized `empty_results` text — present and non-empty in every language
table — is never used by the renderer. The spec states the evident intent;
the code diverges. -/
theorem C5_empty_render_is_empty_string :
    (∀ (s b : Bool) (lang : String), _render_results [] s b lang = "") ∧
    (∀ lang : String, ((_get_text lang).ui.empty_results).isEmpty = false) := by
  constructor
  · intro s b lang
    rfl
  · intro lang
    rcases eq_or_ne lang "it" with h1 | h1
    · subst h1
      decide
    · rcases eq_or_ne lang "en" with h2 | h2
      · subst h2
        decide
      · simp only [_get_text, TEXTS, h1, h2, if_false]
        decide

/-- C6 counterexample: the record produced for a non-existing path carries
only the file/text/seconds keys — its summary key is absent (modelled as
`none`), not present as an empty string, contradicting the claim that every
record contains all five fields on the file-not-found branch as well. -/
theorem C6_counterexample :
    ((transcribe_many sampleEnv (some ["ghost.wav"]) true true "it"
        { fs := [], temps := [], clock := 0, tempCtr := 0, trace := [] }).1.2).getD 0
        dummyResult = fileNotFoundResult "it" "ghost.wav" ∧
    (fileNotFoundResult "it" "ghost.wav").summary = none ∧
    (fileNotFoundResult "it" "ghost.wav").bullets = none := by
  refine ⟨by rfl, by rfl, by rfl⟩

/-- C6 amended: every record always carries the file/text/seconds keys; the
summary and bullets keys are present — as empty strings whenever the mode was
not requested — on the success and per-file-error branches, but on the
file-not-found branch both keys are absent (the renderer reads them with a
default, so they behave as empty at render time): a record lacking the
summary key is exactly a file-not-found record (localized message, zero
seconds, bullets key absent too). -/
theorem C6_amended_record_keys (env : Env) (files : Option (List String))
    (s b : Bool) (lang : String) (st : St) (r : PyResult)
    (hr : r ∈ (transcribe_many env files s b lang st).1.2) :
    (r.summary = none →
      r.text = (_get_text lang).errors.file_not_found ∧
      r.bullets = none ∧ r.seconds = 0) ∧
    (r.bullets = none → r.summary = none) ∧
    (s = false → r.summary = none ∨ r.summary = some "") ∧
    (b = false → r.bullets = none ∨ r.bullets = some "") := by
  cases files with
  | none =>
    simp [transcribe_many] at hr
  | some fs =>
    rw [(many_eq_loop env s b lang fs st).1] at hr
    exact loop_shape env s b lang fs st r hr

/-- Witness for the amended C6 at a concrete one-file success batch. -/
theorem C6_witness :
    (({ file := "a.wav", text := "hello world", summary := some "",
        bullets := some "", seconds := 3 } : PyResult).summary = none →
      ({ file := "a.wav", text := "hello world", summary := some "",
         bullets := some "", seconds := 3 } : PyResult).text =
        (_get_text "it").errors.file_not_found ∧
      ({ file := "a.wav", text := "hello world", summary := some "",
         bullets := some "", seconds := 3 } : PyResult).bullets = none ∧
      ({ file := "a.wav", text := "hello world", summary := some "",
         bullets := some "", seconds := 3 } : PyResult).seconds = 0) ∧
    (({ file := "a.wav", text := "hello world", summary := some "",
        bullets := some "", seconds := 3 } : PyResult).bullets = none →
      ({ file := "a.wav", text := "hello world", summary := some "",
         bullets := some "", seconds := 3 } : PyResult).summary = none) ∧
    (false = false →
      ({ file := "a.wav", text := "hello world", summary := some "",
         bullets := some "", seconds := 3 } : PyResult).summary = none ∨
      ({ file := "a.wav", text := "hello world", summary := some "",
         bullets := some "", seconds := 3 } : PyResult).summary = some "") ∧
    (false = false →
      ({ file := "a.wav", text := "hello world", summary := some "",
         bullets := some "", seconds := 3 } : PyResult).bullets = none ∨
      ({ file := "a.wav", text := "hello world", summary := some "",
         bullets := some "", seconds := 3 } : PyResult).bullets = some "") :=
  C6_amended_record_keys sampleEnv (some ["a.wav"]) false false "it"
    { fs := ["a.wav"], temps := [], clock := 0, tempCtr := 0, trace := [] }
    { file := "a.wav", text := "hello world", summary := some "",
      bullets := some "", seconds := 3 }
    (by rw [(many_eq_loop sampleEnv false false "it" ["a.wav"]
        { fs := ["a.wav"], temps := [], clock := 0, tempCtr := 0, trace := [] }).1]
        ; exact List.mem_singleton.mpr (by rfl))

/-- C7 counterexample: with the converter binary absent and one existing
non-WAV file, the produced transcript is the localized generic
transcription-error message with the ffmpeg detail embedded — it does not
equal the localized "ffmpeg not found" message itself, as the claim states.
-/
theorem C7_counterexample :
    ((transcribe_many noFfmpegEnv (some ["b.mp3"]) false false "it"
        sampleSt).1.2).getD 0 dummyResult =
      { file := "b.mp3",
        text := "Errore durante conversione/trascrizione: ffmpeg non trovato per la conversione in WAV.",
        summary := some "", bullets := some "", seconds := 0 } ∧
    "Errore durante conversione/trascrizione: ffmpeg non trovato per la conversione in WAV."
      ≠ (_get_text "it").errors.ffmpeg_not_found :=
  ⟨by rfl, by decide⟩

/-- C7 amended: converter binary absent, single existing non-WAV file: the
batch yields exactly one result whose transcript is the localized generic
transcription-error message embedding the localized ffmpeg-not-found detail,
with empty summary/bullets strings and zero elapsed seconds; the batch's only
capability event is the single conversion attempt, so the transcription
capability is never invoked for that file. -/
theorem C7_amended_converter_missing (env : Env) (s b : Bool)
    (lang f : String) (st : St)
    (henv : env.ffmpeg = false) (hex : st.fs.contains f = true)
    (hne : f.isEmpty = false) (hconv : _needs_wav_conversion f = true)
    (hrm : env.removeOk (env.tempName st.tempCtr) = true) :
    (transcribe_many env (some [f]) s b lang st).1.2 =
      [{ file := pyBasename f,
         text := pyFormat (_get_text lang).errors.transcription_error
                   "\x7berror\x7d" (_get_text lang).errors.ffmpeg_not_found,
         summary := some "", bullets := some "", seconds := 0 }] ∧
    ((transcribe_many env (some [f]) s b lang st).2).trace =
      st.trace ++ [Event.convert f] := by
  have hm := many_eq_loop env s b lang [f] st
  have hmem : f ∈ st.fs := by simpa using hex
  rw [hm.1, hm.2]
  constructor <;>
    simp [transcribe_loop, transcribe_step, hne, hex, hmem, runJob, hconv,
          convert_spec env f lang st hrm, henv, jobResult, cleanupTemp]

/-- Witness for the amended C7 at a concrete input. -/
theorem C7_witness :
    (transcribe_many noFfmpegEnv (some ["b.mp3"]) true true "en"
        sampleSt).1.2 =
      [{ file := pyBasename "b.mp3",
         text := pyFormat (_get_text "en").errors.transcription_error
                   "\x7berror\x7d" (_get_text "en").errors.ffmpeg_not_found,
         summary := some "", bullets := some "", seconds := 0 }] ∧
    ((transcribe_many noFfmpegEnv (some ["b.mp3"]) true true "en"
        sampleSt).2).trace = sampleSt.trace ++ [Event.convert "b.mp3"] :=
  C7_amended_converter_missing noFfmpegEnv true true "en" "b.mp3" sampleSt
    (by rfl) (by decide) (by decide) (by decide) (by rfl)

/-- C8: if the text-generation endpoint fails — connection error, HTTP error,
or a body that is not parseable JSON — both enrichment invokers return the
empty string as an ordinary value (`Except.ok`, i.e. no exception), so such a
failure never aborts the job or the batch. -/
theorem C8_enrichment_failure_empty (env : Env) (text lang : String) (st : St)
    (hfail : ∀ p, env.ollamaResp p = OllamaOutcome.connError ∨
                  env.ollamaResp p = OllamaOutcome.httpError ∨
                  env.ollamaResp p = OllamaOutcome.badJson) :
    (_ollama_summary env text lang st).1 = Except.ok "" ∧
    (_ollama_bullets env text lang st).1 = Except.ok "" := by
  refine ⟨?_, ?_⟩
  · have h := hfail (pyFormat (_get_text lang).prompts.summary "\x7bcontent\x7d" text)
    simp only [_ollama_summary]
    rcases h with h | h | h <;> rw [h]
  · have h := hfail (pyFormat (_get_text lang).prompts.bullets "\x7bcontent\x7d" text)
    simp only [_ollama_bullets]
    rcases h with h | h | h <;> rw [h]

/-- Witness for C8 with an always-unreachable endpoint. -/
theorem C8_witness :
    (_ollama_summary connFailEnv "hello" "it" sampleSt).1 = Except.ok "" ∧
    (_ollama_bullets connFailEnv "hello" "it" sampleSt).1 = Except.ok "" :=
  C8_enrichment_failure_empty connFailEnv "hello" "it" sampleSt
    (fun _ => Or.inl rfl)

/-- C9: with no resolvable recording capture, `add_recording_to_queue`
returns the existing file list unchanged together with the localized
"nothing to add" message; with a resolvable capture it returns the existing
list with the capture's path appended at the end (never replacing the list)
and the localized "added: name" message with the basename interpolated. -/
theorem C9_add_recording_queue (files : List String) (lang : String)
    (recording : Option FileEntry) :
    ((_extract_recording_path recording).getD "" = "" →
      add_recording_to_queue recording (some (files.map FileEntry.str)) lang =
        (files, (_get_text lang).ui.record_missing, ())) ∧
    (∀ p, _extract_recording_path recording = some p → p ≠ "" →
      add_recording_to_queue recording (some (files.map FileEntry.str)) lang =
        (files ++ [p],
         pyFormat (_get_text lang).ui.record_added "\x7bname\x7d"
           (pyBasename p), ())) := by
  constructor
  · intro h
    simp [add_recording_to_queue, h, normalize_str_list]
    rfl
  · intro p hp hpne
    have hne : p.isEmpty = false := by
      cases hIsE : p.isEmpty
      · rfl
      · exact absurd ((String.isEmpty_iff p).mp hIsE) hpne
    simp [add_recording_to_queue, hp, hne, normalize_str_list]

/-- Witness for C9: a missing capture and a plain-path capture. -/
theorem C9_witness :
    add_recording_to_queue none (some ((["x.wav"] : List String).map FileEntry.str)) "it" =
      (["x.wav"], (_get_text "it").ui.record_missing, ()) ∧
    add_recording_to_queue (some (FileEntry.str "/tmp/rec.wav"))
        (some ((["x.wav"] : List String).map FileEntry.str)) "it" =
      ((["x.wav"] : List String) ++ ["/tmp/rec.wav"],
       pyFormat (_get_text "it").ui.record_added "\x7bname\x7d"
         (pyBasename "/tmp/rec.wav"), ()) :=
  ⟨(C9_add_recording_queue ["x.wav"] "it" none).1 (by rfl),
   (C9_add_recording_queue ["x.wav"] "it"
      (some (FileEntry.str "/tmp/rec.wav"))).2 "/tmp/rec.wav" rfl (by decide)⟩

/-- C10: every language code other than "it" and "en" falls back to the whole
default Italian table for all localized texts (prompts, error messages, UI
strings), while the speech-recognition language hint is "english" for every
code other than "it", unknown codes included — so an unknown interface code
yields Italian user-facing texts but an English transcription hint. -/
theorem C10_language_fallback :
    (∀ lang : String, lang ≠ "it" → lang ≠ "en" → _get_text lang = TEXTS_it) ∧
    (∀ lang : String, lang ≠ "it" → _asr_language lang = "english") := by
  constructor
  · intro lang h1 h2
    simp [_get_text, TEXTS, h1, h2]
  · intro lang h1
    simp [_asr_language, h1]

/-- Witness for C10 at the unknown code "fr". -/
theorem C10_witness :
    _get_text "fr" = TEXTS_it ∧ _asr_language "fr" = "english" :=
  ⟨C10_language_fallback.1 "fr" (by decide) (by decide),
   C10_language_fallback.2 "fr" (by decide)⟩

end Transcriber